import Mathlib

/-!
Verification development for the asynchronous RabbitMQ connection controller
of the esgf-pid repository.

The embedded code is `esgfpid/rabbit/asynchronous/thread_builder.py`
(class `ConnectionBuilder`) together with the module `esgfpid/defaults.py`.
The collaborator modules (state machine, node manager, rabbit thread,
confirmer, shutter) are not part of the given sources; the few operations of
theirs that the controller invokes are modelled from the specification and
are marked as such in their doc comments.

Handlers are embedded as pure functions from a controller state to a
`HandlerResult`: the successor state, the list of externally visible actions
the handler performs on the transport (scheduling a reconnect timer, closing
the connection, opening a channel on the current connection, stopping the
ioloop, unblocking waiting callers, ...), and the exception it raises, if any.
-/

/-- The six lifecycle states of the shared state machine
(`esgfpid/rabbit/asynchronous/`, spec section 4.2). -/
inductive LifeState
  | INITIALIZING
  | WAITING_TO_BE_AVAILABLE
  | AVAILABLE
  | AVAILABLE_BUT_WANTS_TO_STOP
  | PERMANENTLY_UNAVAILABLE
  | FORCE_FINISHED
deriving DecidableEq

/-- The shared state machine object: the current lifecycle state plus the
diagnostic detail flags named in spec section 3. -/
structure StateMachine where
  state : LifeState
  detail_closed_by_publisher : Bool
  detail_could_not_connect : Bool
  detail_authentication_exception : Bool
deriving DecidableEq

/-- A lifecycle state from which, per the spec, no transition leaves. -/
def isTerminal (st : LifeState) : Bool :=
  st == LifeState.PERMANENTLY_UNAVAILABLE || st == LifeState.FORCE_FINISHED

/-- Modelled from the spec: the state-machine module is not among the given
sources. Spec section 4.2: transitions are the only operations, and
"`PERMANENTLY_UNAVAILABLE` and `FORCE_FINISHED` are terminal; no transition
leaves them" (an attempt to leave a terminal state is a programming error and
does not change the state). A setter invoked from a non-terminal state
assigns the target state. -/
def smSet (tgt : LifeState) (sm : StateMachine) : StateMachine :=
  if isTerminal sm.state then sm else { sm with state := tgt }

/-- Modelled from the spec: setter used by the controller (spec 4.2). -/
def set_to_waiting_to_be_available (sm : StateMachine) : StateMachine :=
  smSet LifeState.WAITING_TO_BE_AVAILABLE sm

/-- Modelled from the spec: setter used by the controller (spec 4.2). -/
def set_to_available (sm : StateMachine) : StateMachine :=
  smSet LifeState.AVAILABLE sm

/-- Modelled from the spec: setter used by the controller (spec 4.2). -/
def set_to_permanently_unavailable (sm : StateMachine) : StateMachine :=
  smSet LifeState.PERMANENTLY_UNAVAILABLE sm

/-- Modelled from the spec: state query used by the controller. -/
def is_PERMANENTLY_UNAVAILABLE (sm : StateMachine) : Bool :=
  sm.state == LifeState.PERMANENTLY_UNAVAILABLE

/-- Modelled from the spec: state query used by the controller. -/
def is_FORCE_FINISHED (sm : StateMachine) : Bool :=
  sm.state == LifeState.FORCE_FINISHED

/-- Modelled from the spec: state query used by the controller. -/
def is_WAITING_TO_BE_AVAILABLE (sm : StateMachine) : Bool :=
  sm.state == LifeState.WAITING_TO_BE_AVAILABLE

/-- Modelled from the spec: state query used by the controller. -/
def is_AVAILABLE_BUT_WANTS_TO_STOP (sm : StateMachine) : Bool :=
  sm.state == LifeState.AVAILABLE_BUT_WANTS_TO_STOP

/-- Modelled from the spec: the node manager (spec 4.1 HostDirectory) is not
among the given sources. It is an ordered list of candidate broker hosts plus
an integer cursor; purely deterministic rotation, no other behaviour. -/
structure NodeManager where
  hosts : List String
  cursor : Nat
deriving DecidableEq

/-- Modelled from the spec: `has_more_untried_in_cycle` of spec 4.1 - true
while untried endpoints remain after the cursor in the current cycle. -/
def has_more_urls (nm : NodeManager) : Bool :=
  nm.cursor + 1 < nm.hosts.length

/-- Modelled from the spec: `advance` of spec 4.1 - move the cursor to the
next untried endpoint of the current cycle. -/
def set_next_host (nm : NodeManager) : NodeManager :=
  { nm with cursor := nm.cursor + 1 }

/-- Modelled from the spec: `reset_cycle` of spec 4.1 - return the cursor to
the first endpoint, marking the cycle boundary. -/
def reset_nodes (nm : NodeManager) : NodeManager :=
  { nm with cursor := 0 }

/-- Modelled from the spec: the host the connection parameters currently
point to. -/
def current_host (nm : NodeManager) : String :=
  nm.hosts.getD nm.cursor ""

/-- Modelled from the spec: the slice of the rabbit thread object the
controller touches. `pending` is the PendingMessage FIFO (head first),
`unconfirmed` the InFlightMessage collection in original submission order,
`delivery_number` the next delivery sequence number (initial value 1, spec
section 8). The `error_code` and `error_text` fields are the designated
close-classification constants of the thread module (spec 4.3 step 5).
Messages are abstracted to natural numbers. -/
structure ThreadState where
  pending : List Nat
  unconfirmed : List Nat
  delivery_number : Nat
  exchange_name : String
  has_channel : Bool
  error_code_closed_by_user : Nat
  error_text_force_closed : String
  error_text_normal_shutdown : String
  error_text_permanent_error : String
deriving DecidableEq

/-- Modelled from the spec: reset the next-delivery-sequence counter to its
initial value for a new channel (spec 4.4 step d; initial value 1 per the
scenarios of spec section 8). -/
def reset_delivery_number (t : ThreadState) : ThreadState :=
  { t with delivery_number := 1 }

/-- Modelled from the spec: extract all in-flight (unconfirmed) messages as a
list preserving original submission order (spec 4.4 step a). -/
def get_unconfirmed_messages_as_list_copy_during_lifetime (t : ThreadState) : List Nat :=
  t.unconfirmed

/-- Modelled from the spec: hand a batch of rescued messages back to the
pending queue, ahead of anything newly submitted since the disruption,
preserving their relative order (spec 4.4 step c and the ordering guarantee
of spec section 5). -/
def send_many_messages (t : ThreadState) (msgs : List Nat) : ThreadState :=
  { t with pending := msgs ++ t.pending }

/-- Modelled from the spec: clear the delivery-sequence mapping entirely -
sequence numbers are meaningless on a new channel (spec 4.4 step b). -/
def reset_unconfirmed_messages_and_delivery_tags (t : ThreadState) : ThreadState :=
  { t with unconfirmed := [] }

/-- Embedding of the Python substring test `pat in text` on characters:
`charsStartWith text pat` is true when `pat` is an initial segment of
`text`. -/
def charsStartWith : List Char → List Char → Bool
  | _, [] => true
  | [], _ :: _ => false
  | a :: as, b :: bs => a == b && charsStartWith as bs

/-- Embedding of the Python substring test `pat in text` on characters:
true when `pat` occurs contiguously somewhere in `text`. -/
def charsContain : List Char → List Char → Bool
  | [], pat => charsStartWith [] pat
  | t@(_ :: rest), pat => charsStartWith t pat || charsContain rest pat

/-- Embedding of the Python operator `pat in text` for strings. -/
def strContains (text pat : String) : Bool :=
  charsContain text.data pat.data

/-- The exception type raised by the controller
(`esgfpid/rabbit/exceptions.py` PIDServerException, carrying a message). -/
structure PIDServerException where
  msg : String
deriving DecidableEq

/-- Externally visible actions a handler performs on the transport layer. -/
inductive RAction
  | ScheduleReconnect (waitSeconds : Nat)
  | CloseConnection
  | OpenChannel
  | StopIoloop
  | UnblockEvents
  | PublishArrived
  | SafetyFinish
  | StartIoloop
deriving DecidableEq

/-- The mutable state of `ConnectionBuilder` (thread_builder.py lines 29-92)
together with the shared collaborator objects it owns references to. The
configuration fields `max_reconnection_tries` and
`wait_seconds_before_reconnect` stand for the values `__init__` intends to
read from the defaults module. -/
structure BuilderState where
  statemachine : StateMachine
  nodemanager : NodeManager
  reconnect_counter : Nat
  max_reconnection_tries : Nat
  wait_seconds_before_reconnect : Nat
  all_hosts_that_were_tried : List String
  fallback_exchange_name : String
  thread : ThreadState
deriving DecidableEq

/-- Result of running one handler: successor state, transport actions in the
order performed, and the raised exception, if any. -/
structure HandlerResult where
  state : BuilderState
  actions : List RAction
  raised : Option PIDServerException
deriving DecidableEq

/-- Message of the raise at thread_builder.py lines 320-322 and 543-545
(interpolated host list omitted). -/
def MSG_GIVING_UP_FORCE : String :=
  "Permanently failed to connect to RabbitMQ. Tried all hosts until received a force-finish. Giving up. No PID requests will be sent."

/-- Message of the raise at thread_builder.py lines 351-353 (interpolated
host list and count omitted). -/
def MSG_GIVING_UP_TRIES : String :=
  "Permanently failed to connect to RabbitMQ. Tried all hosts the maximum number of times. Giving up. No PID requests will be sent."

/-- Embeds `ConnectionBuilder.__wait_and_trigger_reconnection`
(thread_builder.py lines 537-550): re-check FORCE_FINISHED and raise if set;
otherwise set the state machine to WAITING_TO_BE_AVAILABLE and arm the
reconnect timer with the given delay. -/
def wait_and_trigger_reconnection (s : BuilderState) (wait_seconds : Nat) : HandlerResult :=
  if is_FORCE_FINISHED s.statemachine then
    { state := s, actions := [], raised := some ⟨MSG_GIVING_UP_FORCE⟩ }
  else
    { state := { s with statemachine := set_to_waiting_to_be_available s.statemachine }
    , actions := [RAction.ScheduleReconnect wait_seconds]
    , raised := none }

/-- Embeds `ConnectionBuilder.on_connection_error` (thread_builder.py lines
309-353). The `msg` argument is the failure reason; it only feeds logging. -/
def on_connection_error (s : BuilderState) (_msg : String) : HandlerResult :=
  if is_FORCE_FINISHED s.statemachine then
    { state := s, actions := [], raised := some ⟨MSG_GIVING_UP_FORCE⟩ }
  else if has_more_urls s.nodemanager then
    wait_and_trigger_reconnection { s with nodemanager := set_next_host s.nodemanager } 0
  else
    let s1 := { s with reconnect_counter := s.reconnect_counter + 1 }
    if s1.reconnect_counter ≤ s1.max_reconnection_tries then
      wait_and_trigger_reconnection { s1 with nodemanager := reset_nodes s1.nodemanager }
        s1.wait_seconds_before_reconnect
    else
      let sm1 := set_to_permanently_unavailable s1.statemachine
      let sm2 := { sm1 with detail_could_not_connect := true }
      { state := { s1 with statemachine := sm2 }
      , actions := []
      , raised := some ⟨MSG_GIVING_UP_TRIES⟩ }

/-- The hard-coded channel-close pattern checked at thread_builder.py line
406: the reply text naming the missing FALLBACK exchange. -/
def FALLBACK_NOT_FOUND_PATTERN : String :=
  "NOT_FOUND - no exchange \x27FALLBACK\x27"

/-- Embeds `ConnectionBuilder.__prepare_republication_of_unconfirmed`
(thread_builder.py lines 609-619): copy out the unconfirmed messages, and if
there are any, hand them back for resending. -/
def prepare_republication_of_unconfirmed (t : ThreadState) : ThreadState :=
  let rescued_messages := get_unconfirmed_messages_as_list_copy_during_lifetime t
  if rescued_messages.length > 0 then send_many_messages t rescued_messages else t

/-- Embeds `ConnectionBuilder.__prepare_channel_reopen` (thread_builder.py
lines 592-607): reset the delivery number, prepare republication of the
unconfirmed messages, then reset the unconfirmed-message mapping and
delivery tags - in exactly that source order. -/
def prepare_channel_reopen (s : BuilderState) : BuilderState :=
  let t1 := reset_delivery_number s.thread
  let t2 := prepare_republication_of_unconfirmed t1
  let t3 := reset_unconfirmed_messages_and_delivery_tags t2
  { s with thread := t3 }

/-- Embeds `ConnectionBuilder.__use_different_exchange_and_reopen_channel`
(thread_builder.py lines 426-444): set the state machine to
WAITING_TO_BE_AVAILABLE, switch the thread to the fallback exchange name,
prepare the channel reopen (rescue), set WAITING_TO_BE_AVAILABLE again and
ask for a new channel on the existing connection. -/
def use_different_exchange_and_reopen_channel (s : BuilderState) : HandlerResult :=
  let s1 := { s with statemachine := set_to_waiting_to_be_available s.statemachine }
  let s2 := { s1 with thread := { s1.thread with exchange_name := s1.fallback_exchange_name } }
  let s3 := prepare_channel_reopen s2
  let s4 := { s3 with statemachine := set_to_waiting_to_be_available s3.statemachine }
  { state := s4, actions := [RAction.OpenChannel], raised := none }

/-- Embeds `ConnectionBuilder.on_channel_closed` (thread_builder.py lines
397-418): expected close while permanently unavailable does nothing; reply
code 404 naming the FALLBACK exchange closes the whole connection; any other
404 switches to the fallback exchange and reopens a channel on the same
connection; every other reason closes the whole connection. -/
def on_channel_closed (s : BuilderState) (reply_code : Nat) (reply_text : String) : HandlerResult :=
  if is_PERMANENTLY_UNAVAILABLE s.statemachine then
    { state := s, actions := [], raised := none }
  else if reply_code == 404 && strContains reply_text FALLBACK_NOT_FOUND_PATTERN then
    { state := s, actions := [RAction.CloseConnection], raised := none }
  else if reply_code == 404 then
    use_different_exchange_and_reopen_channel s
  else
    { state := s, actions := [RAction.CloseConnection], raised := none }

/-- Embeds `ConnectionBuilder.__was_permanent_error` (thread_builder.py lines
470-473). -/
def was_permanent_error (s : BuilderState) (reply_text : String) : Bool :=
  strContains reply_text s.thread.error_text_permanent_error

/-- Embeds `ConnectionBuilder.__was_forced_user_shutdown` (thread_builder.py
lines 482-486). -/
def was_forced_user_shutdown (s : BuilderState) (reply_code : Nat) (reply_text : String) : Bool :=
  reply_code == s.thread.error_code_closed_by_user &&
    strContains reply_text s.thread.error_text_force_closed

/-- Embeds `ConnectionBuilder.__was_gentle_user_shutdown` (thread_builder.py
lines 488-492). -/
def was_gentle_user_shutdown (s : BuilderState) (reply_code : Nat) (reply_text : String) : Bool :=
  reply_code == s.thread.error_code_closed_by_user &&
    strContains reply_text s.thread.error_text_normal_shutdown

/-- Embeds `ConnectionBuilder.__was_user_shutdown` (thread_builder.py lines
475-480). -/
def was_user_shutdown (s : BuilderState) (reply_code : Nat) (reply_text : String) : Bool :=
  was_forced_user_shutdown s reply_code reply_text ||
    was_gentle_user_shutdown s reply_code reply_text

/-- Embeds `ConnectionBuilder.make_permanently_closed_by_user`
(thread_builder.py lines 495-506): set the state machine to permanently
unavailable and stop the ioloop. No other action is performed. -/
def make_permanently_closed_by_user (s : BuilderState) : HandlerResult :=
  { state := { s with statemachine := set_to_permanently_unavailable s.statemachine }
  , actions := [RAction.StopIoloop]
  , raised := none }

/-- Embeds `ConnectionBuilder.make_permanently_closed_by_error`
(thread_builder.py lines 508-525): set the state machine to permanently
unavailable, unblock any waiting caller, and stop the ioloop. -/
def make_permanently_closed_by_error (s : BuilderState) : HandlerResult :=
  { state := { s with statemachine := set_to_permanently_unavailable s.statemachine }
  , actions := [RAction.UnblockEvents, RAction.StopIoloop]
  , raised := none }

/-- Embeds `ConnectionBuilder.on_connection_closed` (thread_builder.py lines
456-468): drop the channel handle, then classify the close reason as user
shutdown, permanent error, or anything else (handled as a connection
error). -/
def on_connection_closed (s : BuilderState) (reply_code : Nat) (reply_text : String) : HandlerResult :=
  let s0 := { s with thread := { s.thread with has_channel := false } }
  if was_user_shutdown s0 reply_code reply_text then
    make_permanently_closed_by_user s0
  else if was_permanent_error s0 reply_text then
    make_permanently_closed_by_error s0
  else
    on_connection_error s0 reply_text

/-- Embeds `ConnectionBuilder.__check_for_already_arrived_messages_and_publish_them`
(thread_builder.py lines 283-292): if messages queued up in the meantime,
trigger their publication. -/
def check_for_already_arrived_messages (s : BuilderState) : List RAction :=
  if s.thread.pending.length > 0 then [RAction.PublishArrived] else []

/-- Embeds `ConnectionBuilder.__make_ready_for_publishing` (thread_builder.py
lines 248-281), branching on the lifecycle state. In this embedding the
channel and connection handles exist on every path reaching it, so the
handles-are-None error branches of lines 252-257 do not fire. -/
def make_ready_for_publishing (s : BuilderState) : HandlerResult :=
  if is_WAITING_TO_BE_AVAILABLE s.statemachine then
    let s1 := { s with statemachine := set_to_available s.statemachine }
    { state := s1, actions := check_for_already_arrived_messages s1, raised := none }
  else if is_AVAILABLE_BUT_WANTS_TO_STOP s.statemachine then
    { state := s, actions := check_for_already_arrived_messages s, raised := none }
  else if is_PERMANENTLY_UNAVAILABLE s.statemachine then
    if s.statemachine.detail_closed_by_publisher then
      { state := s, actions := [RAction.SafetyFinish], raised := none }
    else
      { state := s, actions := [], raised := none }
  else
    { state := s, actions := [], raised := none }

/-- Embeds `ConnectionBuilder.on_channel_open` (thread_builder.py lines
232-241): store the channel handle, reset the reconnect counter to zero,
register the channel callbacks and proceed to make ready for publishing. -/
def on_channel_open (s : BuilderState) : HandlerResult :=
  let s1 := { s with thread := { s.thread with has_channel := true }, reconnect_counter := 0 }
  make_ready_for_publishing s1

/-- The error name handed to the connection-error handler at
thread_builder.py line 151. -/
def AUTH_ERROR_NAME : String := "ProbableAuthenticationError issued by pika"

/-- Embeds the `ProbableAuthenticationError` except-branch of
`ConnectionBuilder.__start_waiting_for_events` (thread_builder.py lines
138-156): set the state machine to WAITING_TO_BE_AVAILABLE, record the
authentication detail flag, manually invoke the connection-error callback
(the transport surfaced the failure silently), then restart the ioloop. -/
def handle_probable_authentication_error (s : BuilderState) : HandlerResult :=
  let sm1 := set_to_waiting_to_be_available s.statemachine
  let sm2 := { sm1 with detail_authentication_exception := true }
  let r := on_connection_error { s with statemachine := sm2 } AUTH_ERROR_NAME
  { r with actions := r.actions ++ [RAction.StartIoloop] }

/-- Embeds `ConnectionBuilder.__please_open_connection` (thread_builder.py
lines 194-207) up to the creation of the connection object: the attempted
host is recorded in the tried-hosts log. -/
def please_open_connection (s : BuilderState) : BuilderState :=
  { s with all_hosts_that_were_tried := current_host s.nodemanager :: s.all_hosts_that_were_tried }

/-- Embeds `ConnectionBuilder.__trigger_connection_to_rabbit_etc`
(thread_builder.py lines 189-191): set WAITING_TO_BE_AVAILABLE and start a
connection attempt. -/
def trigger_connection_to_rabbit_etc (s : BuilderState) : BuilderState :=
  please_open_connection { s with statemachine := set_to_waiting_to_be_available s.statemachine }

/-- Embeds `ConnectionBuilder.reconnect` (thread_builder.py lines 570-586) as
far as state is concerned: prepare the channel reopen (rescue), stop the old
ioloop, and run the first-connection entry point again, which triggers the
next connection attempt. -/
def reconnect_entry (s : BuilderState) : BuilderState :=
  trigger_connection_to_rabbit_etc (prepare_channel_reopen s)

/-- One failed connection attempt followed, when the handler scheduled a
retry, by the reconnect timer firing: each invocation of
`on_connection_error` stands for exactly one connection attempt having
failed. `count_attempts_all_fail s fuel` counts the connection attempts made
(and failed) until the controller raises, starting from a state about to
handle its first failure; `fuel` bounds the recursion. -/
def count_attempts_all_fail : BuilderState → Nat → Nat
  | _, 0 => 0
  | s, Nat.succ fuel =>
    let r := on_connection_error s "connection attempt failed"
    match r.raised with
    | some _ => 1
    | none => 1 + count_attempts_all_fail (reconnect_entry r.state) fuel

/-- Companion to `count_attempts_all_fail`: the controller state at the
moment the fatal exception is raised, or `none` if the fuel ran out first. -/
def run_all_fail : BuilderState → Nat → Option BuilderState
  | _, 0 => none
  | s, Nat.succ fuel =>
    let r := on_connection_error s "connection attempt failed"
    match r.raised with
    | some _ => some r.state
    | none => run_all_fail (reconnect_entry r.state) fuel

/-- The names the module `esgfpid/defaults.py` defines, in source order. -/
def defaults_names : List String :=
  [ "ACCEPTED_PREFIXES"
  , "LOG_INFO_TO_DEBUG"
  , "LOG_DEBUG_TO_INFO"
  , "LOG_TRACE_TO_DEBUG"
  , "LOG_SHOW_TO_INFO"
  , "SOLR_HTTPS_VERIFY_DEFAULT"
  , "SOLR_QUERY_DISTRIB"
  , "RABBIT_IS_ASYNCHRONOUS"
  , "ROUTING_KEY_BASIS"
  , "RABBIT_DEFAULT_ROUTING_KEY"
  , "RABBIT_EMERGENCY_ROUTING_KEY"
  , "_persistent"
  , "_nonpersistent"
  , "RABBIT_DELIVERY_MODE"
  , "RABBIT_MANDATORY_DELIVERY"
  , "RABBIT_FALLBACK_EXCHANGE_NAME"
  , "RABBIT_SYN_SOCKET_TIMEOUT"
  , "RABBIT_SYN_CONNECTION_ATTEMPTS"
  , "RABBIT_SYN_CONNECTION_RETRY_DELAY_SECONDS"
  , "RABBIT_SYN_MAX_TRIES"
  , "RABBIT_SYN_TIMEOUT_MILLISEC"
  , "RABBIT_ASYN_RECONNECTION_SECONDS"
  , "RABBIT_ASYN_RECONNECTION_MAX_TRIES"
  , "RABBIT_ASYN_SOCKET_TIMEOUT"
  , "RABBIT_ASYN_CONNECTION_ATTEMPTS"
  , "RABBIT_ASYN_CONNECTION_RETRY_DELAY_SECONDS"
  , "RABBIT_ASYN_FINISH_MAX_TRIES"
  , "RABBIT_ASYN_FINISH_WAIT_SECONDS"
  , "RABBIT_LOG_MESSAGE_INCREMENT" ]

/-- A Python runtime error relevant to module attribute access. -/
inductive PyError
  | AttributeError (name : String)
deriving DecidableEq

/-- Embedding of the Python attribute access `module.attr`: succeeds exactly
when the module defines the name, otherwise raises AttributeError naming the
missing attribute. -/
def module_getattr (names : List String) (attr : String) : Except PyError String :=
  if names.contains attr then Except.ok attr else Except.error (PyError.AttributeError attr)

/-- Embeds `ConnectionBuilder.__init__` (thread_builder.py lines 29-92) as
far as it can fail. The six constructor arguments are stored unconditionally
(lines 30-55, modelled by the opaque-to-this-claim argument tuple, which the
lookups do not inspect); then the module-level attribute reads happen in
source order: `defaults.RABBIT_RECONNECTION_MAX_TRIES` (line 68),
`defaults.RABBIT_RECONNECTION_SECONDS` (line 75),
`defaults.RABBIT_FALLBACK_EXCHANGE_NAME` (line 92). The first failing read
aborts the construction with that AttributeError. -/
def connection_builder_init
    (_thread _statemachine _confirmer _returnhandler _shutter _nodemanager : Nat) :
    Except PyError (List String) :=
  (module_getattr defaults_names ("RABBIT_RECONNECTION_MAX_TRIES")).bind fun a =>
  (module_getattr defaults_names ("RABBIT_RECONNECTION_SECONDS")).bind fun b =>
  (module_getattr defaults_names ("RABBIT_FALLBACK_EXCHANGE_NAME")).bind fun c =>
  Except.ok [a, b, c]

/-- The rescue protocol exactly as the spec words it (spec 4.4, steps in the
spec order): (a) extract the in-flight messages, (b) clear the
delivery-sequence mapping, (c) put the extracted messages back onto the
pending queue ahead of newer ones, (d) reset the next-delivery-sequence
counter to its initial value. Stated from the spec, to be compared with the
source-order `prepare_channel_reopen`. -/
def rescue_spec_order (t : ThreadState) : ThreadState :=
  let rescued := t.unconfirmed
  let t1 := { t with unconfirmed := [] }
  let t2 := { t1 with pending := rescued ++ t1.pending }
  { t2 with delivery_number := 1 }

/-- A thread fixture with no queued messages and arbitrary concrete
close-classification constants. -/
def threadFix : ThreadState :=
  { pending := [], unconfirmed := [], delivery_number := 1
  , exchange_name := "exch", has_channel := true
  , error_code_closed_by_user := 999
  , error_text_force_closed := "Closed by user force"
  , error_text_normal_shutdown := "Normal user shutdown"
  , error_text_permanent_error := "PERMANENT ERROR" }

/-- A state-machine fixture in WAITING_TO_BE_AVAILABLE with all detail flags
clear. -/
def smFix : StateMachine :=
  { state := LifeState.WAITING_TO_BE_AVAILABLE
  , detail_closed_by_publisher := false
  , detail_could_not_connect := false
  , detail_authentication_exception := false }

/-- The scenario of the spec (section 8) and of the comment at
thread_builder.py lines 63-66: three hosts, per-cycle maximum of two
reconnection tries, about to handle the failure of the first attempt. -/
def scenarioThreeHostsTwoTries : BuilderState :=
  { statemachine := smFix
  , nodemanager := { hosts := ["h1", "h2", "h3"], cursor := 0 }
  , reconnect_counter := 0
  , max_reconnection_tries := 2
  , wait_seconds_before_reconnect := 5
  , all_hosts_that_were_tried := ["h1"]
  , fallback_exchange_name := "FALLBACK"
  , thread := threadFix }

lemma isTerminal_false_of_ne {st : LifeState}
    (h1 : st ≠ LifeState.PERMANENTLY_UNAVAILABLE)
    (h2 : st ≠ LifeState.FORCE_FINISHED) : isTerminal st = false := by
  cases st <;> revert h1 h2 <;> decide

lemma smSet_of_not_terminal {sm : StateMachine} (t : LifeState)
    (h : isTerminal sm.state = false) : smSet t sm = { sm with state := t } := by
  simp [smSet, h]

lemma smSet_of_terminal {sm : StateMachine} (t : LifeState)
    (h : isTerminal sm.state = true) : smSet t sm = sm := by
  simp [smSet, h]

lemma prepare_channel_reopen_eq (s : BuilderState) :
    prepare_channel_reopen s = { s with thread := rescue_spec_order s.thread } := by
  unfold prepare_channel_reopen rescue_spec_order prepare_republication_of_unconfirmed
  unfold get_unconfirmed_messages_as_list_copy_during_lifetime send_many_messages
  unfold reset_delivery_number reset_unconfirmed_messages_and_delivery_tags
  cases hu : s.thread.unconfirmed with
  | nil => simp [hu]
  | cons a l => simp [hu]

/-- C1: in the scenario of the claim - 3 configured hosts, per-cycle maximum
of 2 reconnection tries, every connection attempt failing - the controller
makes exactly 9 = N*(R+1) connection attempts before raising the fatal
error with `detail_could_not_connect` set (the counter is incremented and
then compared with `<=` at thread_builder.py lines 338-339), not the 6 = N*R
attempts the claim, the spec and the comment at thread_builder.py lines
63-66 state. -/
theorem c1_code_makes_nine_attempts_not_six :
    count_attempts_all_fail scenarioThreeHostsTwoTries 100 = 9 ∧
    count_attempts_all_fail scenarioThreeHostsTwoTries 100 ≠ 6 ∧
    (run_all_fail scenarioThreeHostsTwoTries 100).map
        (fun s => s.statemachine.detail_could_not_connect) = some true ∧
    (run_all_fail scenarioThreeHostsTwoTries 100).map
        (fun s => s.statemachine.state) = some LifeState.PERMANENTLY_UNAVAILABLE := by
  refine ⟨by decide, by decide, by decide, by decide⟩

/-- C2: every construction of ConnectionBuilder fails with AttributeError on
`defaults.RABBIT_RECONNECTION_MAX_TRIES` (thread_builder.py line 68), the
first of the two reads of names the defaults module does not define (it
defines only the RABBIT_ASYN_-prefixed variants, defaults.py lines 36-37),
so no ConnectionBuilder object is ever successfully created, whatever the
constructor arguments. -/
theorem c2_init_always_raises_attribute_error :
    ∀ (a b c d e f : Nat),
      connection_builder_init a b c d e f =
        Except.error (PyError.AttributeError ("RABBIT_RECONNECTION_MAX_TRIES")) := by
  intro a b c d e f
  rfl

/-- C4: the rescue step run on every channel teardown
(`__prepare_channel_reopen`, source order: reset delivery number, extract
and requeue the unconfirmed messages, clear the mapping) produces exactly
the state the spec's stated order (a) extract, (b) clear mapping, (c)
requeue ahead of newer messages, (d) reset counter produces; in particular
the extraction happens before the mapping is cleared, the pending queue
afterwards holds every formerly in-flight message, in order, ahead of
everything else, the mapping is empty and the delivery counter is back at
its initial value 1. -/
theorem c4_rescue_step_matches_spec_order :
    ∀ (s : BuilderState),
      prepare_channel_reopen s = { s with thread := rescue_spec_order s.thread } ∧
      (prepare_channel_reopen s).thread.pending =
        s.thread.unconfirmed ++ s.thread.pending ∧
      (prepare_channel_reopen s).thread.unconfirmed = [] ∧
      (prepare_channel_reopen s).thread.delivery_number = 1 ∧
      (prepare_channel_reopen s).statemachine = s.statemachine := by
  intro s
  refine ⟨prepare_channel_reopen_eq s, ?_, ?_, ?_, rfl⟩ <;>
    rw [prepare_channel_reopen_eq s] <;> simp [rescue_spec_order]


/-- C10: every successful channel open resets the cycle-retry counter to
zero (thread_builder.py line 237), and the handler result does not depend on
the counter value accumulated before the success, so the configured
per-cycle maximum bounds only the consecutive failed cycles since the last
successful channel open, not the total number of failures over the
controller lifetime. -/
theorem c10_channel_open_resets_reconnect_counter :
    ∀ (s : BuilderState),
      ((on_channel_open s).state).reconnect_counter = 0 ∧
      ∀ (c : Nat), on_channel_open { s with reconnect_counter := c } = on_channel_open s := by
  intro s
  constructor
  · simp only [on_channel_open, make_ready_for_publishing, check_for_already_arrived_messages]
    repeat' split
    all_goals rfl
  · intro c
    rfl

lemma isTerminal_waiting : isTerminal LifeState.WAITING_TO_BE_AVAILABLE = false := rfl

/-- C5: once the state machine is FORCE_FINISHED, the connection-error
handler raises the fatal PIDServerException immediately, changes nothing and
schedules no retry (thread_builder.py lines 315-322), and the FORCE_FINISHED
check is re-done inside `__wait_and_trigger_reconnection` before any retry
timer is armed (lines 537-545), so a connect attempt racing with a
force-finish never silently reconnects. -/
theorem c5_force_finished_is_fatal (s : BuilderState) (m : String) (w : Nat)
    (h : s.statemachine.state = LifeState.FORCE_FINISHED) :
    on_connection_error s m =
      { state := s, actions := [], raised := some ⟨MSG_GIVING_UP_FORCE⟩ } ∧
    wait_and_trigger_reconnection s w =
      { state := s, actions := [], raised := some ⟨MSG_GIVING_UP_FORCE⟩ } := by
  constructor <;>
    simp [on_connection_error, wait_and_trigger_reconnection, is_FORCE_FINISHED, h]

/-- A controller state whose state machine is FORCE_FINISHED. -/
def stateForceFinished : BuilderState :=
  { scenarioThreeHostsTwoTries with
    statemachine := { smFix with state := LifeState.FORCE_FINISHED } }

/-- Witness for C5 at a concrete FORCE_FINISHED state. -/
theorem c5_force_finished_is_fatal_witness :
    stateForceFinished.statemachine.state = LifeState.FORCE_FINISHED ∧
    (on_connection_error stateForceFinished ("connection failed") =
       { state := stateForceFinished, actions := [], raised := some ⟨MSG_GIVING_UP_FORCE⟩ } ∧
     wait_and_trigger_reconnection stateForceFinished 5 =
       { state := stateForceFinished, actions := [], raised := some ⟨MSG_GIVING_UP_FORCE⟩ }) :=
  ⟨rfl, c5_force_finished_is_fatal stateForceFinished ("connection failed") 5 rfl⟩

/-- C3: on a channel-closed event with reply code 404 whose text does not
name the FALLBACK exchange, the controller switches the exchange selector to
the fallback name, sets the state machine to WAITING_TO_BE_AVAILABLE,
rescues the messages already handed to the old channel (they reappear at
the head of the pending queue, the delivery-sequence mapping is cleared and
the counter is reset) and asks for a new channel on the same connection -
the node-manager cursor and the reconnect counter are untouched, so no
host-failover attempt is consumed; when the 404 text does name the FALLBACK
exchange, the controller instead closes the whole connection, which drives
the full reconnection chain. -/
theorem c3_exchange_fallback (s : BuilderState) (text : String)
    (h1 : s.statemachine.state ≠ LifeState.PERMANENTLY_UNAVAILABLE)
    (h2 : s.statemachine.state ≠ LifeState.FORCE_FINISHED) :
    (strContains text FALLBACK_NOT_FOUND_PATTERN = false →
      on_channel_closed s 404 text =
        { state :=
            { s with
              statemachine := { s.statemachine with state := LifeState.WAITING_TO_BE_AVAILABLE }
            , thread :=
                { s.thread with
                  exchange_name := s.fallback_exchange_name
                , pending := s.thread.unconfirmed ++ s.thread.pending
                , unconfirmed := []
                , delivery_number := 1 } }
        , actions := [RAction.OpenChannel]
        , raised := none }) ∧
    (strContains text FALLBACK_NOT_FOUND_PATTERN = true →
      on_channel_closed s 404 text =
        { state := s, actions := [RAction.CloseConnection], raised := none }) := by
  have hT : isTerminal s.statemachine.state = false := isTerminal_false_of_ne h1 h2
  constructor
  · intro hpat
    simp [on_channel_closed, is_PERMANENTLY_UNAVAILABLE, h1, hpat,
      use_different_exchange_and_reopen_channel, set_to_waiting_to_be_available, smSet, hT,
      prepare_channel_reopen_eq, rescue_spec_order, isTerminal_waiting]
  · intro hpat
    simp [on_channel_closed, is_PERMANENTLY_UNAVAILABLE, h1, hpat]

/-- Witness for C3 at the concrete scenario state. -/
theorem c3_exchange_fallback_witness :
    scenarioThreeHostsTwoTries.statemachine.state ≠ LifeState.PERMANENTLY_UNAVAILABLE ∧
    ((strContains ("NOT_FOUND - no exchange \x27cmip6\x27") FALLBACK_NOT_FOUND_PATTERN = false →
      on_channel_closed scenarioThreeHostsTwoTries 404 ("NOT_FOUND - no exchange \x27cmip6\x27") =
        { state :=
            { scenarioThreeHostsTwoTries with
              statemachine :=
                { scenarioThreeHostsTwoTries.statemachine with
                  state := LifeState.WAITING_TO_BE_AVAILABLE }
            , thread :=
                { scenarioThreeHostsTwoTries.thread with
                  exchange_name := scenarioThreeHostsTwoTries.fallback_exchange_name
                , pending :=
                    scenarioThreeHostsTwoTries.thread.unconfirmed ++
                      scenarioThreeHostsTwoTries.thread.pending
                , unconfirmed := []
                , delivery_number := 1 } }
        , actions := [RAction.OpenChannel]
        , raised := none }) ∧
     (strContains ("NOT_FOUND - no exchange \x27cmip6\x27") FALLBACK_NOT_FOUND_PATTERN = true →
      on_channel_closed scenarioThreeHostsTwoTries 404 ("NOT_FOUND - no exchange \x27cmip6\x27") =
        { state := scenarioThreeHostsTwoTries
        , actions := [RAction.CloseConnection]
        , raised := none })) :=
  ⟨by decide,
   c3_exchange_fallback scenarioThreeHostsTwoTries ("NOT_FOUND - no exchange \x27cmip6\x27")
     (by decide) (by decide)⟩

lemma was_user_shutdown_set_channel (s : BuilderState) (b : Bool) (c : Nat) (t : String) :
    was_user_shutdown { s with thread := { s.thread with has_channel := b } } c t =
      was_user_shutdown s c t := rfl

lemma was_permanent_error_set_channel (s : BuilderState) (b : Bool) (t : String) :
    was_permanent_error { s with thread := { s.thread with has_channel := b } } t =
      was_permanent_error s t := rfl

lemma smSet_perm_of_ne_ff {sm : StateMachine}
    (hff : sm.state ≠ LifeState.FORCE_FINISHED) :
    set_to_permanently_unavailable sm =
      { sm with state := LifeState.PERMANENTLY_UNAVAILABLE } := by
  unfold set_to_permanently_unavailable smSet
  by_cases hp : sm.state = LifeState.PERMANENTLY_UNAVAILABLE
  · have ht : isTerminal sm.state = true := by simp [isTerminal, hp]
    cases sm
    simp_all
  · have ht : isTerminal sm.state = false := isTerminal_false_of_ne hp hff
    simp [ht]

/-- A controller state connected and AVAILABLE, as when a close event
arrives. -/
def c6_user_close_state : BuilderState :=
  { scenarioThreeHostsTwoTries with
    statemachine := { smFix with state := LifeState.AVAILABLE } }

/-- C6 counterexample: a user-initiated normal shutdown reason (the
designated close code 999 with the designated normal-shutdown marker in the
text) does lead to PERMANENTLY_UNAVAILABLE, but the handler performs no
release of blocked callers - `make_permanently_closed_by_user`
(thread_builder.py lines 495-506) never calls `unblock_events`; only
`make_permanently_closed_by_error` (lines 508-525, the permanent-error
branch) does. This refutes the claim as stated, which attributes the
release of blocked callers to the user-shutdown branch. -/
theorem c6_counterexample_user_close_does_not_release_blocked_callers :
    was_user_shutdown c6_user_close_state 999 ("Normal user shutdown by publisher") = true ∧
    (on_connection_closed c6_user_close_state 999
        ("Normal user shutdown by publisher")).state.statemachine.state =
      LifeState.PERMANENTLY_UNAVAILABLE ∧
    RAction.UnblockEvents ∉
      (on_connection_closed c6_user_close_state 999
        ("Normal user shutdown by publisher")).actions := by
  decide

/-- C6 amended: when the connection is reported closed, the reason is
classified. A user-initiated normal or forced shutdown (designated close
code and text) leads to PERMANENTLY_UNAVAILABLE with no retry, stopping the
ioloop (blocked callers are not released by this handler). A reason
containing the designated permanent-error marker text leads to
PERMANENTLY_UNAVAILABLE with no retry, and blocked callers are released.
Every other reason is handled exactly like a connection failure through
`on_connection_error`, which implements the failover/backoff policy. -/
theorem c6_amended_connection_closed_classification (s : BuilderState) (code : Nat) (text : String)
    (hff : s.statemachine.state ≠ LifeState.FORCE_FINISHED) :
    (was_user_shutdown s code text = true →
      on_connection_closed s code text =
        { state :=
            { s with
              statemachine := { s.statemachine with state := LifeState.PERMANENTLY_UNAVAILABLE }
            , thread := { s.thread with has_channel := false } }
        , actions := [RAction.StopIoloop]
        , raised := none }) ∧
    (was_user_shutdown s code text = false → was_permanent_error s text = true →
      on_connection_closed s code text =
        { state :=
            { s with
              statemachine := { s.statemachine with state := LifeState.PERMANENTLY_UNAVAILABLE }
            , thread := { s.thread with has_channel := false } }
        , actions := [RAction.UnblockEvents, RAction.StopIoloop]
        , raised := none }) ∧
    (was_user_shutdown s code text = false → was_permanent_error s text = false →
      on_connection_closed s code text =
        on_connection_error { s with thread := { s.thread with has_channel := false } } text) := by
  refine ⟨?_, ?_, ?_⟩
  · intro hu
    simp [on_connection_closed, was_user_shutdown_set_channel, hu,
      make_permanently_closed_by_user, smSet_perm_of_ne_ff hff]
  · intro hu hp
    simp [on_connection_closed, was_user_shutdown_set_channel, was_permanent_error_set_channel,
      hu, hp, make_permanently_closed_by_error, smSet_perm_of_ne_ff hff]
  · intro hu hp
    simp [on_connection_closed, was_user_shutdown_set_channel, was_permanent_error_set_channel,
      hu, hp]

/-- Witness for the amended C6 at a concrete connected state. -/
theorem c6_amended_connection_closed_classification_witness :
    c6_user_close_state.statemachine.state ≠ LifeState.FORCE_FINISHED ∧
    ((was_user_shutdown c6_user_close_state 999 ("Normal user shutdown by publisher") = true →
      on_connection_closed c6_user_close_state 999 ("Normal user shutdown by publisher") =
        { state :=
            { c6_user_close_state with
              statemachine :=
                { c6_user_close_state.statemachine with
                  state := LifeState.PERMANENTLY_UNAVAILABLE }
            , thread := { c6_user_close_state.thread with has_channel := false } }
        , actions := [RAction.StopIoloop]
        , raised := none }) ∧
     (was_user_shutdown c6_user_close_state 999 ("Normal user shutdown by publisher") = false →
      was_permanent_error c6_user_close_state ("Normal user shutdown by publisher") = true →
      on_connection_closed c6_user_close_state 999 ("Normal user shutdown by publisher") =
        { state :=
            { c6_user_close_state with
              statemachine :=
                { c6_user_close_state.statemachine with
                  state := LifeState.PERMANENTLY_UNAVAILABLE }
            , thread := { c6_user_close_state.thread with has_channel := false } }
        , actions := [RAction.UnblockEvents, RAction.StopIoloop]
        , raised := none }) ∧
     (was_user_shutdown c6_user_close_state 999 ("Normal user shutdown by publisher") = false →
      was_permanent_error c6_user_close_state ("Normal user shutdown by publisher") = false →
      on_connection_closed c6_user_close_state 999 ("Normal user shutdown by publisher") =
        on_connection_error
          { c6_user_close_state with
            thread := { c6_user_close_state.thread with has_channel := false } }
          ("Normal user shutdown by publisher"))) :=
  ⟨by decide,
   c6_amended_connection_closed_classification c6_user_close_state 999
     ("Normal user shutdown by publisher") (by decide)⟩

/-- Repeated within-cycle failure: each step is one failed connection
attempt handled by `on_connection_error` followed by the armed reconnect
firing (`reconnect` then `first_connection`). -/
def iterate_fail (msg : String) : Nat → BuilderState → BuilderState
  | 0, s => s
  | Nat.succ k, s => iterate_fail msg k (reconnect_entry (on_connection_error s msg).state)

lemma oce_within_cycle (s : BuilderState) (msg : String)
    (hW : s.statemachine.state = LifeState.WAITING_TO_BE_AVAILABLE)
    (hc : s.nodemanager.cursor + 1 < s.nodemanager.hosts.length) :
    on_connection_error s msg =
      { state :=
          { s with
            statemachine := { s.statemachine with state := LifeState.WAITING_TO_BE_AVAILABLE }
          , nodemanager := { s.nodemanager with cursor := s.nodemanager.cursor + 1 } }
      , actions := [RAction.ScheduleReconnect 0]
      , raised := none } := by
  simp [on_connection_error, is_FORCE_FINISHED, hW, has_more_urls, hc,
    wait_and_trigger_reconnection, set_next_host, set_to_waiting_to_be_available, smSet,
    isTerminal_waiting]

lemma reconnect_entry_fields (s : BuilderState)
    (hT : isTerminal s.statemachine.state = false) :
    (reconnect_entry s).statemachine =
      { s.statemachine with state := LifeState.WAITING_TO_BE_AVAILABLE } ∧
    (reconnect_entry s).nodemanager = s.nodemanager ∧
    (reconnect_entry s).reconnect_counter = s.reconnect_counter ∧
    (reconnect_entry s).max_reconnection_tries = s.max_reconnection_tries ∧
    (reconnect_entry s).wait_seconds_before_reconnect = s.wait_seconds_before_reconnect := by
  refine ⟨?_, rfl, rfl, rfl, rfl⟩
  simp [reconnect_entry, trigger_connection_to_rabbit_etc, please_open_connection,
    prepare_channel_reopen_eq, set_to_waiting_to_be_available, smSet, hT]

lemma iterate_fail_within_cycle (msg : String) :
    ∀ (k : Nat) (s : BuilderState),
      s.statemachine.state = LifeState.WAITING_TO_BE_AVAILABLE →
      s.nodemanager.cursor + k < s.nodemanager.hosts.length →
      (iterate_fail msg k s).statemachine.state = LifeState.WAITING_TO_BE_AVAILABLE ∧
      (iterate_fail msg k s).nodemanager.cursor = s.nodemanager.cursor + k ∧
      (iterate_fail msg k s).nodemanager.hosts = s.nodemanager.hosts ∧
      (iterate_fail msg k s).reconnect_counter = s.reconnect_counter := by
  intro k
  induction k with
  | zero =>
    intro s hW hc
    exact ⟨hW, by simp [iterate_fail], rfl, rfl⟩
  | succ k ih =>
    intro s hW hc
    have hc1 : s.nodemanager.cursor + 1 < s.nodemanager.hosts.length := by omega
    rw [iterate_fail, oce_within_cycle s msg hW hc1]
    obtain ⟨hA, hB, hC, hD, hE⟩ :=
      reconnect_entry_fields
        { s with
          statemachine := { s.statemachine with state := LifeState.WAITING_TO_BE_AVAILABLE }
        , nodemanager := { s.nodemanager with cursor := s.nodemanager.cursor + 1 } }
        isTerminal_waiting
    obtain ⟨i1, i2, i3, i4⟩ :=
      ih (reconnect_entry
            { s with
              statemachine := { s.statemachine with state := LifeState.WAITING_TO_BE_AVAILABLE }
            , nodemanager := { s.nodemanager with cursor := s.nodemanager.cursor + 1 } })
        (by rw [hA]) (by rw [hB]; simp; omega)
    refine ⟨i1, ?_, ?_, ?_⟩
    · rw [i2, hB]
      simp
      omega
    · rw [i3, hB]
    · rw [i4, hC]

/-- C7: within one cycle, after an endpoint fails the controller advances
the cursor to the next untried endpoint and retries with zero delay, leaving
the cycle-retry counter untouched; when the cycle is exhausted (and the
counter still under the maximum) the cursor resets to the first endpoint and
the configured fixed delay is applied - the only point where a nonzero delay
occurs. Iterating within-cycle failures from any starting point moves the
cursor strictly forward one endpoint per failure, so a failed endpoint is
never retried before the remaining endpoints of the cycle have been
tried. -/
theorem c7_cycle_rotation_policy (msg : String) (s : BuilderState)
    (hW : s.statemachine.state = LifeState.WAITING_TO_BE_AVAILABLE) :
    (s.nodemanager.cursor + 1 < s.nodemanager.hosts.length →
      (on_connection_error s msg).actions = [RAction.ScheduleReconnect 0] ∧
      (on_connection_error s msg).state.nodemanager.cursor = s.nodemanager.cursor + 1 ∧
      (on_connection_error s msg).state.reconnect_counter = s.reconnect_counter ∧
      (on_connection_error s msg).raised = none) ∧
    (¬ s.nodemanager.cursor + 1 < s.nodemanager.hosts.length →
      s.reconnect_counter + 1 ≤ s.max_reconnection_tries →
      (on_connection_error s msg).actions =
        [RAction.ScheduleReconnect s.wait_seconds_before_reconnect] ∧
      (on_connection_error s msg).state.nodemanager.cursor = 0 ∧
      (on_connection_error s msg).raised = none) ∧
    (∀ k, s.nodemanager.cursor + k < s.nodemanager.hosts.length →
      (iterate_fail msg k s).nodemanager.cursor = s.nodemanager.cursor + k) := by
  refine ⟨?_, ?_, ?_⟩
  · intro hc
    rw [oce_within_cycle s msg hW hc]
    exact ⟨rfl, rfl, rfl, rfl⟩
  · intro hnc hr
    simp [on_connection_error, is_FORCE_FINISHED, hW, has_more_urls, hnc, hr,
      wait_and_trigger_reconnection, reset_nodes, set_to_waiting_to_be_available, smSet,
      isTerminal_waiting]
  · intro k hk
    exact (iterate_fail_within_cycle msg k s hW hk).2.1

/-- Witness for C7 at the concrete three-host scenario state. -/
theorem c7_cycle_rotation_policy_witness :
    scenarioThreeHostsTwoTries.statemachine.state = LifeState.WAITING_TO_BE_AVAILABLE ∧
    ((scenarioThreeHostsTwoTries.nodemanager.cursor + 1 <
        scenarioThreeHostsTwoTries.nodemanager.hosts.length →
      (on_connection_error scenarioThreeHostsTwoTries ("refused")).actions =
        [RAction.ScheduleReconnect 0] ∧
      (on_connection_error scenarioThreeHostsTwoTries ("refused")).state.nodemanager.cursor =
        scenarioThreeHostsTwoTries.nodemanager.cursor + 1 ∧
      (on_connection_error scenarioThreeHostsTwoTries ("refused")).state.reconnect_counter =
        scenarioThreeHostsTwoTries.reconnect_counter ∧
      (on_connection_error scenarioThreeHostsTwoTries ("refused")).raised = none) ∧
     (¬ scenarioThreeHostsTwoTries.nodemanager.cursor + 1 <
        scenarioThreeHostsTwoTries.nodemanager.hosts.length →
      scenarioThreeHostsTwoTries.reconnect_counter + 1 ≤
        scenarioThreeHostsTwoTries.max_reconnection_tries →
      (on_connection_error scenarioThreeHostsTwoTries ("refused")).actions =
        [RAction.ScheduleReconnect scenarioThreeHostsTwoTries.wait_seconds_before_reconnect] ∧
      (on_connection_error scenarioThreeHostsTwoTries ("refused")).state.nodemanager.cursor = 0 ∧
      (on_connection_error scenarioThreeHostsTwoTries ("refused")).raised = none) ∧
     (∀ k, scenarioThreeHostsTwoTries.nodemanager.cursor + k <
        scenarioThreeHostsTwoTries.nodemanager.hosts.length →
      (iterate_fail ("refused") k scenarioThreeHostsTwoTries).nodemanager.cursor =
        scenarioThreeHostsTwoTries.nodemanager.cursor + k)) :=
  ⟨rfl, c7_cycle_rotation_policy ("refused") scenarioThreeHostsTwoTries rfl⟩

/-- C8: an authentication failure, surfaced silently as a
ProbableAuthenticationError exception rather than via the normal failure
callback, is detected in `__start_waiting_for_events` and treated
identically to a transient connection failure: the state machine is set to
WAITING_TO_BE_AVAILABLE (with the authentication detail flag recorded) and
the connection-error handler is invoked manually, so - when further
endpoints remain in the cycle - the failure consumes a host attempt
(cursor advanced by one) and triggers zero-delay failover, and no exception
is raised to the caller. -/
theorem c8_auth_failure_treated_as_connection_failure (s : BuilderState)
    (h1 : s.statemachine.state ≠ LifeState.PERMANENTLY_UNAVAILABLE)
    (h2 : s.statemachine.state ≠ LifeState.FORCE_FINISHED)
    (h3 : s.nodemanager.cursor + 1 < s.nodemanager.hosts.length) :
    handle_probable_authentication_error s =
      (let r := on_connection_error
          { s with statemachine :=
              { set_to_waiting_to_be_available s.statemachine with
                detail_authentication_exception := true } }
          AUTH_ERROR_NAME
       { r with actions := r.actions ++ [RAction.StartIoloop] }) ∧
    (handle_probable_authentication_error s).raised = none ∧
    (handle_probable_authentication_error s).state.statemachine.state =
      LifeState.WAITING_TO_BE_AVAILABLE ∧
    (handle_probable_authentication_error s).state.statemachine.detail_authentication_exception
      = true ∧
    (handle_probable_authentication_error s).state.nodemanager.cursor =
      s.nodemanager.cursor + 1 ∧
    (handle_probable_authentication_error s).actions =
      [RAction.ScheduleReconnect 0, RAction.StartIoloop] := by
  have hT : isTerminal s.statemachine.state = false := isTerminal_false_of_ne h1 h2
  have hsm : set_to_waiting_to_be_available s.statemachine =
      { s.statemachine with state := LifeState.WAITING_TO_BE_AVAILABLE } := by
    simp [set_to_waiting_to_be_available, smSet, hT]
  refine ⟨rfl, ?_⟩
  simp only [handle_probable_authentication_error, hsm]
  rw [oce_within_cycle
        { s with statemachine :=
            { s.statemachine with
              state := LifeState.WAITING_TO_BE_AVAILABLE
            , detail_authentication_exception := true } }
        AUTH_ERROR_NAME rfl h3]
  simp

/-- Witness for C8 at the concrete three-host scenario state. -/
theorem c8_auth_failure_treated_as_connection_failure_witness :
    scenarioThreeHostsTwoTries.statemachine.state ≠ LifeState.PERMANENTLY_UNAVAILABLE ∧
    (handle_probable_authentication_error scenarioThreeHostsTwoTries =
      (let r := on_connection_error
          { scenarioThreeHostsTwoTries with statemachine :=
              { set_to_waiting_to_be_available scenarioThreeHostsTwoTries.statemachine with
                detail_authentication_exception := true } }
          AUTH_ERROR_NAME
       { r with actions := r.actions ++ [RAction.StartIoloop] }) ∧
     (handle_probable_authentication_error scenarioThreeHostsTwoTries).raised = none ∧
     (handle_probable_authentication_error scenarioThreeHostsTwoTries).state.statemachine.state =
       LifeState.WAITING_TO_BE_AVAILABLE ∧
     (handle_probable_authentication_error
        scenarioThreeHostsTwoTries).state.statemachine.detail_authentication_exception = true ∧
     (handle_probable_authentication_error scenarioThreeHostsTwoTries).state.nodemanager.cursor =
       scenarioThreeHostsTwoTries.nodemanager.cursor + 1 ∧
     (handle_probable_authentication_error scenarioThreeHostsTwoTries).actions =
       [RAction.ScheduleReconnect 0, RAction.StartIoloop]) :=
  ⟨by decide,
   c8_auth_failure_treated_as_connection_failure scenarioThreeHostsTwoTries
     (by decide) (by decide) (by decide)⟩

lemma term_wtr (s : BuilderState) (h : isTerminal s.statemachine.state = true) (w : Nat) :
    (wait_and_trigger_reconnection s w).state.statemachine.state = s.statemachine.state := by
  unfold wait_and_trigger_reconnection
  split
  · rfl
  · simp [set_to_waiting_to_be_available, smSet, h]

lemma term_oce (s : BuilderState) (h : isTerminal s.statemachine.state = true) (m : String) :
    (on_connection_error s m).state.statemachine.state = s.statemachine.state := by
  simp only [on_connection_error]
  split
  · rfl
  · split
    · apply term_wtr
      exact h
    · split
      · apply term_wtr
        exact h
      · simp [set_to_permanently_unavailable, smSet, h]

lemma term_udr (s : BuilderState) (h : isTerminal s.statemachine.state = true) :
    (use_different_exchange_and_reopen_channel s).state.statemachine.state =
      s.statemachine.state := by
  simp [use_different_exchange_and_reopen_channel, prepare_channel_reopen_eq,
    set_to_waiting_to_be_available, smSet, h]

lemma term_occ (s : BuilderState) (h : isTerminal s.statemachine.state = true)
    (c : Nat) (t : String) :
    (on_channel_closed s c t).state.statemachine.state = s.statemachine.state := by
  unfold on_channel_closed
  split
  · rfl
  · split
    · rfl
    · split
      · exact term_udr s h
      · rfl

lemma term_onclosed (s : BuilderState) (h : isTerminal s.statemachine.state = true)
    (c : Nat) (t : String) :
    (on_connection_closed s c t).state.statemachine.state = s.statemachine.state := by
  simp only [on_connection_closed]
  split
  · simp [make_permanently_closed_by_user, set_to_permanently_unavailable, smSet, h]
  · split
    · simp [make_permanently_closed_by_error, set_to_permanently_unavailable, smSet, h]
    · apply term_oce
      exact h

lemma term_chopen (s : BuilderState) (h : isTerminal s.statemachine.state = true) :
    (on_channel_open s).state.statemachine.state = s.statemachine.state := by
  simp only [on_channel_open, make_ready_for_publishing]
  repeat' split
  all_goals simp [set_to_available, smSet, h]

lemma term_auth (s : BuilderState) (h : isTerminal s.statemachine.state = true) :
    (handle_probable_authentication_error s).state.statemachine.state =
      s.statemachine.state := by
  simp only [handle_probable_authentication_error]
  have hsm : set_to_waiting_to_be_available s.statemachine = s.statemachine := by
    simp [set_to_waiting_to_be_available, smSet, h]
  rw [hsm]
  apply term_oce
  exact h

lemma term_reconnect_entry (s : BuilderState) (h : isTerminal s.statemachine.state = true) :
    (reconnect_entry s).statemachine.state = s.statemachine.state := by
  simp [reconnect_entry, trigger_connection_to_rabbit_etc, please_open_connection,
    prepare_channel_reopen_eq, set_to_waiting_to_be_available, smSet, h]

/-- C9: PERMANENTLY_UNAVAILABLE and FORCE_FINISHED are terminal. Once the
shared state machine is in either of them, no controller handler moves it to
any other state: every handler of the embedded ConnectionBuilder leaves the
lifecycle state unchanged (in particular, none takes it back to
WAITING_TO_BE_AVAILABLE or AVAILABLE; invocations of the waiting-setter
from a terminal state are invalid transitions that, per spec 4.2, do not
leave the terminal state). -/
theorem c9_terminal_states_are_preserved (s : BuilderState)
    (code : Nat) (text : String) (m : String) (w : Nat)
    (h : isTerminal s.statemachine.state = true) :
    (on_connection_error s m).state.statemachine.state = s.statemachine.state ∧
    (wait_and_trigger_reconnection s w).state.statemachine.state = s.statemachine.state ∧
    (on_channel_closed s code text).state.statemachine.state = s.statemachine.state ∧
    (on_connection_closed s code text).state.statemachine.state = s.statemachine.state ∧
    (on_channel_open s).state.statemachine.state = s.statemachine.state ∧
    (make_permanently_closed_by_user s).state.statemachine.state = s.statemachine.state ∧
    (make_permanently_closed_by_error s).state.statemachine.state = s.statemachine.state ∧
    (handle_probable_authentication_error s).state.statemachine.state = s.statemachine.state ∧
    (reconnect_entry s).statemachine.state = s.statemachine.state :=
  ⟨term_oce s h m, term_wtr s h w, term_occ s h code text, term_onclosed s h code text,
   term_chopen s h,
   by simp [make_permanently_closed_by_user, set_to_permanently_unavailable, smSet, h],
   by simp [make_permanently_closed_by_error, set_to_permanently_unavailable, smSet, h],
   term_auth s h, term_reconnect_entry s h⟩

/-- A controller state whose state machine sits in the terminal
PERMANENTLY_UNAVAILABLE state. -/
def statePermanentlyUnavailable : BuilderState :=
  { scenarioThreeHostsTwoTries with
    statemachine := { smFix with state := LifeState.PERMANENTLY_UNAVAILABLE } }

/-- Witness for C9 at a concrete terminal state. -/
theorem c9_terminal_states_are_preserved_witness :
    isTerminal statePermanentlyUnavailable.statemachine.state = true ∧
    ((on_connection_error statePermanentlyUnavailable ("boom")).state.statemachine.state =
       statePermanentlyUnavailable.statemachine.state ∧
     (wait_and_trigger_reconnection statePermanentlyUnavailable 5).state.statemachine.state =
       statePermanentlyUnavailable.statemachine.state ∧
     (on_channel_closed statePermanentlyUnavailable 404 ("gone")).state.statemachine.state =
       statePermanentlyUnavailable.statemachine.state ∧
     (on_connection_closed statePermanentlyUnavailable 404 ("gone")).state.statemachine.state =
       statePermanentlyUnavailable.statemachine.state ∧
     (on_channel_open statePermanentlyUnavailable).state.statemachine.state =
       statePermanentlyUnavailable.statemachine.state ∧
     (make_permanently_closed_by_user statePermanentlyUnavailable).state.statemachine.state =
       statePermanentlyUnavailable.statemachine.state ∧
     (make_permanently_closed_by_error statePermanentlyUnavailable).state.statemachine.state =
       statePermanentlyUnavailable.statemachine.state ∧
     (handle_probable_authentication_error
        statePermanentlyUnavailable).state.statemachine.state =
       statePermanentlyUnavailable.statemachine.state ∧
     (reconnect_entry statePermanentlyUnavailable).statemachine.state =
       statePermanentlyUnavailable.statemachine.state) :=
  ⟨by decide,
   c9_terminal_states_are_preserved statePermanentlyUnavailable 404 ("gone") ("boom") 5
     (by decide)⟩
